import Mathlib

/-!
Verification of the Sociora blockchain core (`src/blockchain/`): the
tokenomics reward-split calculator (`utils.py`), the transaction hashing
rules (`transaction.py`), the in-memory storage network state machine
(`storage_network.py`), and the storage-validation / dynamic-reward /
mining pipeline (`mining.py`).

Modelling conventions.
Python `float` quantities are embedded as exact rationals (`ℚ`); Python
`int` as `ℤ`; Python `round(x, 8)`, which rounds half to even, is embedded
as `pyRound8` below.  SHA-256 digests are identified with their (canonical)
preimages: the hash model is an injective stand-in, so equal inputs give
equal digests and distinct inputs give distinct digests, which is exactly
the collision-free reading the source relies on.  Python dicts keyed by
strings are embedded as association lists with update-in-place-or-append
semantics (`dictSet`), matching dict insertion-order behaviour; wall-clock
timestamps, uuid nonces and elapsed-time metadata are nondeterministic
inputs and are passed in as explicit parameters (or omitted where they are
pure diagnostics that no property observes).
-/

/-- Round a rational to the nearest integer, ties to even — the rounding
rule of Python's built-in `round`. -/
def rne (q : ℚ) : ℤ :=
  if q - ⌊q⌋ < 1/2 then ⌊q⌋
  else if 1/2 < q - ⌊q⌋ then ⌊q⌋ + 1
  else if ⌊q⌋ % 2 = 0 then ⌊q⌋ else ⌊q⌋ + 1

/-- Python's `round(q, 8)`: round to 8 decimal places, ties to even. -/
def pyRound8 (q : ℚ) : ℚ :=
  (rne (q * 100000000) : ℚ) / 100000000

theorem rne_floor_le (q : ℚ) : ⌊q⌋ ≤ rne q := by
  unfold rne
  split
  · exact le_refl _
  · split
    · exact Int.le_add_one (le_refl _)
    · split
      · exact le_refl _
      · exact Int.le_add_one (le_refl _)

theorem abs_rne_sub_le (q : ℚ) : |(rne q : ℚ) - q| ≤ 1/2 := by
  have h0 : ((⌊q⌋ : ℤ) : ℚ) ≤ q := Int.floor_le q
  have h1 : q < (⌊q⌋ : ℚ) + 1 := Int.lt_floor_add_one q
  unfold rne
  split
  · rename_i h2
    rw [abs_le]
    constructor <;> linarith
  · rename_i h2
    split
    · rename_i h3
      rw [abs_le]; push_cast; constructor <;> linarith
    · rename_i h3
      have h4 : q - (⌊q⌋ : ℚ) = 1/2 := le_antisymm (not_lt.mp h3) (not_lt.mp h2)
      split
      · rw [abs_le]; constructor <;> linarith
      · rw [abs_le]; push_cast; constructor <;> linarith

theorem le_rne (k : ℤ) (q : ℚ) (h : (k : ℚ) ≤ q) : k ≤ rne q :=
  le_trans (Int.le_floor.mpr h) (rne_floor_le q)

theorem rne_le (k : ℤ) (q : ℚ) (h : q ≤ (k : ℚ)) : rne q ≤ k := by
  have hfl : ⌊q⌋ ≤ k := by
    have := Int.floor_mono h
    simpa using this
  have h0 : ((⌊q⌋ : ℤ) : ℚ) ≤ q := Int.floor_le q
  rcases lt_or_eq_of_le hfl with hlt | heq
  · unfold rne
    split
    · exact hfl
    · split
      · omega
      · split
        · exact hfl
        · omega
  · have hq : q = (⌊q⌋ : ℚ) := le_antisymm (by rw [heq]; exact_mod_cast h) h0
    have hcond : q - (⌊q⌋ : ℚ) < 1/2 := by
      have : q - (⌊q⌋ : ℚ) = 0 := by linarith
      linarith
    unfold rne
    rw [if_pos hcond]
    exact hfl

theorem abs_pyRound8_sub_le (q : ℚ) : |pyRound8 q - q| ≤ 1/200000000 := by
  have h := abs_rne_sub_le (q * 100000000)
  unfold pyRound8
  have hq : (rne (q * 100000000) : ℚ) / 100000000 - q =
      ((rne (q * 100000000) : ℚ) - q * 100000000) / 100000000 := by ring
  rw [hq, abs_div, abs_of_pos (by norm_num : (0:ℚ) < 100000000)]
  rw [div_le_div_iff₀ (by norm_num) (by norm_num)]
  nlinarith [h]

theorem le_pyRound8 (a q : ℚ) (ha : pyRound8 a = a) (h : a ≤ q) : a ≤ pyRound8 q := by
  rw [← ha]
  unfold pyRound8
  rw [div_le_div_iff₀ (by norm_num) (by norm_num)]
  have hk : (rne (a * 100000000) : ℚ) ≤ q * 100000000 := by
    have ha' : (rne (a * 100000000) : ℚ) / 100000000 = a := ha
    have : (rne (a * 100000000) : ℚ) = a * 100000000 := by
      field_simp at ha'
      linarith
    rw [this]
    nlinarith
  have := le_rne (rne (a * 100000000)) (q * 100000000) hk
  have hcast : ((rne (a * 100000000) : ℤ) : ℚ) ≤ ((rne (q * 100000000) : ℤ) : ℚ) := by
    exact_mod_cast this
  nlinarith

theorem pyRound8_le (a q : ℚ) (ha : pyRound8 a = a) (h : q ≤ a) : pyRound8 q ≤ a := by
  rw [← ha]
  unfold pyRound8
  rw [div_le_div_iff₀ (by norm_num) (by norm_num)]
  have hk : q * 100000000 ≤ (rne (a * 100000000) : ℚ) := by
    have ha' : (rne (a * 100000000) : ℚ) / 100000000 = a := ha
    have : (rne (a * 100000000) : ℚ) = a * 100000000 := by
      field_simp at ha'
      linarith
    rw [this]
    nlinarith
  have := rne_le (rne (a * 100000000)) (q * 100000000) hk
  have hcast : ((rne (q * 100000000) : ℤ) : ℚ) ≤ ((rne (a * 100000000) : ℤ) : ℚ) := by
    exact_mod_cast this
  nlinarith

/-- The four beneficiary amounts returned by
`TokenomicsUtils.calculate_reward_split` (`utils.py`), one per key of the
Python result dict. -/
structure RewardSplit where
  creator : ℚ
  miner : ℚ
  viewer : ℚ
  platform : ℚ
deriving DecidableEq, Repr

/-- `TokenomicsUtils.calculate_reward_split` (`utils.py` lines 113-153):
raises `ValueError` when the percentages' sum differs from 100 by more
than 0.01, else returns the four rounded amounts.  The numeric suffix of
the Python message ("Got {total}") is elided from the error string. -/
def calculate_reward_split (total_reward creator_percentage miner_percentage
    viewer_percentage platform_percentage : ℚ) : Except String RewardSplit :=
  let total_percent := creator_percentage + miner_percentage +
    viewer_percentage + platform_percentage
  if |total_percent - 100| > 1/100 then
    Except.error "Reward percentages must sum to 100"
  else
    Except.ok
      { creator := pyRound8 (total_reward * (creator_percentage / 100))
        miner := pyRound8 (total_reward * (miner_percentage / 100))
        viewer := pyRound8 (total_reward * (viewer_percentage / 100))
        platform := pyRound8 (total_reward * (platform_percentage / 100)) }

/-- `TokenomicsUtils.validate_percentages` (`utils.py` lines 155-178):
false on any negative percentage, else true iff the sum is within 0.01
of 100. -/
def validate_percentages (creator miner viewer platform : ℚ) : Bool :=
  if creator < 0 ∨ miner < 0 ∨ viewer < 0 ∨ platform < 0 then
    false
  else
    decide (|creator + miner + viewer + platform - 100| ≤ 1/100)

/-- True exactly when an `Except` value is an error. -/
def exceptFails {ε α : Type} : Except ε α → Bool
  | Except.error _ => true
  | Except.ok _ => false

/-- `TransactionType` enum (`transaction.py` lines 12-20). -/
inductive TransactionType
  | VIDEO_UPLOAD
  | INVESTMENT
  | DISTRIBUTION
  | STORAGE_PROOF
  | INTEREST_PAYOUT
  | WITHDRAWAL
  | PLATFORM_FEE
deriving DecidableEq, Repr

/-- The `.value` string of a `TransactionType` member. -/
def TransactionType.value : TransactionType → String
  | VIDEO_UPLOAD => "VIDEO_UPLOAD"
  | INVESTMENT => "INVESTMENT"
  | DISTRIBUTION => "DISTRIBUTION"
  | STORAGE_PROOF => "STORAGE_PROOF"
  | INTEREST_PAYOUT => "INTEREST_PAYOUT"
  | WITHDRAWAL => "WITHDRAWAL"
  | PLATFORM_FEE => "PLATFORM_FEE"

/-- `TransactionStatus` enum (`transaction.py` lines 23-28). -/
inductive TransactionStatus
  | PENDING
  | CONFIRMED
  | FINALIZED
  | FAILED
deriving DecidableEq, Repr

/-- Canonical content hashed by
`CryptoUtils.generate_transaction_hash` on the dict that
`Transaction.compute_tx_hash` builds: `asdict(self)` minus the popped keys
`_tx_hash` and `status`, with `tx_type` lowered to its `.value` string
(`transaction.py` lines 121-128).  Note that `block_hash` and
`block_number` are NOT popped, so they are part of the hashed content.
The SHA-256 digest is identified with this canonical content (the
key-sorted JSON rendering is a bijection on it, and SHA-256 is read as
collision-free). -/
structure TxHashContent where
  tx_id : String
  timestamp : String
  tx_type : String
  sender_public_key_hash : String
  receiver_public_key_hash : String
  creator_id : String
  amount : ℚ
  currency : String
  video_hash : String
  video_length : ℤ
  video_size : ℤ
  storage_proof : Option String
  storage_proof_signature : Option String
  nonce : ℤ
  gas_price : ℚ
  gas_limit : ℤ
  block_hash : Option String
  block_number : Option ℤ
  metadata : List (String × String)
deriving DecidableEq, Repr

/-- The `Transaction` dataclass (`transaction.py` lines 31-111), fields in
source order; `tx_hash_cache` models the `_tx_hash` cache slot. -/
structure Transaction where
  tx_id : String
  timestamp : String
  tx_type : TransactionType
  sender_public_key_hash : String
  receiver_public_key_hash : String
  creator_id : String
  amount : ℚ
  currency : String := "SOCIORA"
  video_hash : String
  video_length : ℤ
  video_size : ℤ
  storage_proof : Option String := none
  storage_proof_signature : Option String := none
  nonce : ℤ := 0
  gas_price : ℚ := 1/1000
  gas_limit : ℤ := 21000
  status : TransactionStatus := TransactionStatus.PENDING
  block_hash : Option String := none
  block_number : Option ℤ := none
  metadata : List (String × String) := []
  tx_hash_cache : Option TxHashContent := none
deriving DecidableEq, Repr

/-- `Transaction.compute_tx_hash` (`transaction.py` lines 113-131): the
digest of every field of the transaction except the cache slot `_tx_hash`
and `status`, which are popped before hashing.  Python also stores the
result back into `self._tx_hash`; the digest value returned is modelled
here, the cache write being unobservable by the digest. -/
def compute_tx_hash (t : Transaction) : TxHashContent :=
  { tx_id := t.tx_id
    timestamp := t.timestamp
    tx_type := t.tx_type.value
    sender_public_key_hash := t.sender_public_key_hash
    receiver_public_key_hash := t.receiver_public_key_hash
    creator_id := t.creator_id
    amount := t.amount
    currency := t.currency
    video_hash := t.video_hash
    video_length := t.video_length
    video_size := t.video_size
    storage_proof := t.storage_proof
    storage_proof_signature := t.storage_proof_signature
    nonce := t.nonce
    gas_price := t.gas_price
    gas_limit := t.gas_limit
    block_hash := t.block_hash
    block_number := t.block_number
    metadata := t.metadata }

/-- `StorageStatus` enum (`storage_network.py` lines 21-27). -/
inductive StorageStatus
  | UNKNOWN
  | PENDING
  | STORED
  | REPLICATED
  | VERIFIED
deriving DecidableEq, Repr

/-- `TranscodingStatus` enum (`storage_network.py` lines 30-35). -/
inductive TranscodingStatus
  | NOT_STARTED
  | IN_PROGRESS
  | COMPLETED
  | FAILED
deriving DecidableEq, Repr

/-- `TranscodingProfile` dataclass (`storage_network.py` lines 45-54). -/
structure TranscodingProfile where
  format_name : String
  codec : String
  resolution : String
  bitrate : String
  size_bytes : ℤ
  duration_seconds : ℤ
  hash : String
deriving DecidableEq, Repr

/-- `StorageNode` dataclass (`storage_network.py` lines 57-66). -/
structure StorageNode where
  node_id : String
  address : String
  region : String
  storage_capacity : ℤ
  storage_used : ℤ
  reputation : ℚ
  is_online : Bool := true
deriving DecidableEq, Repr

/-- `VideoMetadata` dataclass (`storage_network.py` lines 126-144), fields
in source order. -/
structure VideoMetadata where
  video_cid : String
  creator_id : String
  title : String
  duration_seconds : ℤ
  original_size_bytes : ℤ
  storage_status : StorageStatus := StorageStatus.UNKNOWN
  transcoding_status : TranscodingStatus := TranscodingStatus.NOT_STARTED
  uploaded_at : String := ""
  available_on_network : List String := []
  transcoded_profiles : List TranscodingProfile := []
  replication_factor : ℤ := 3
  total_cost_storage : ℚ := 0
  total_cost_transcoding : ℚ := 0
deriving DecidableEq, Repr

/-- The `storage_data` dict a `StorageProof` carries after
`create_storage_proof` filled it (`mining.py` lines 311-318). -/
structure StorageData where
  video_cid : String
  video_length : ℤ
  video_size : ℤ
  replicas : ℤ
  profiles : List String
  validation_timestamp : String
deriving DecidableEq, Repr

/-- `StorageProof` dataclass (`storage_network.py` lines 69-109).  The
wall-clock `computation_time` diagnostic is not modelled. -/
structure StorageProof where
  video_cid : String
  miner_address : String
  timestamp : String
  storage_nodes : List StorageNode
  transcoding_profiles : List TranscodingProfile
  proof_nonce : String
  proof_hash : String
  storage_data : Option StorageData := none
  is_valid : Bool := false
  storage_replication : ℤ := 1
deriving DecidableEq, Repr

/-- The `StorageNetwork` registry (`storage_network.py` lines 155-173):
three string-keyed dicts, embedded as association lists. -/
structure StorageNetwork where
  videos : List (String × VideoMetadata)
  nodes : List (String × StorageNode)
  proofs : List (String × StorageProof)
deriving DecidableEq, Repr

/-- The freshly constructed `StorageNetwork` (its `__init__`). -/
def emptyNetwork : StorageNetwork := { videos := [], nodes := [], proofs := [] }

/-- Python dict assignment `d[k] = v` on an association list: overwrite the
binding in place if the key is present, else append it. -/
def dictSet {α : Type} : List (String × α) → String → α → List (String × α)
  | [], k, v => [(k, v)]
  | (k', v') :: t, k, v =>
      if k' = k then (k, v) :: t else (k', v') :: dictSet t k v

theorem dictSet_lookup_self {α : Type} (l : List (String × α)) (k : String) (v : α) :
    (dictSet l k v).lookup k = some v := by
  induction l with
  | nil => simp [dictSet, List.lookup]
  | cons hd t ih =>
    obtain ⟨k', v'⟩ := hd
    by_cases h : k' = k
    · simp [dictSet, h, List.lookup]
    · simp only [dictSet, if_neg h, List.lookup]
      have : (k == k') = false := by
        simp [BEq.beq]
        exact fun he => h he.symm
      rw [this]
      exact ih

theorem dictSet_lookup_ne {α : Type} (l : List (String × α)) (k k' : String) (v : α)
    (h : k' ≠ k) : (dictSet l k v).lookup k' = l.lookup k' := by
  induction l with
  | nil =>
    simp only [dictSet, List.lookup]
    have : (k' == k) = false := by simpa using h
    rw [this]
  | cons hd t ih =>
    obtain ⟨k0, v0⟩ := hd
    by_cases h0 : k0 = k
    · subst h0
      simp only [dictSet, if_pos rfl, List.lookup]
      have h1 : (k' == k0) = false := by simpa using h
      rw [h1]
    · simp only [dictSet, if_neg h0, List.lookup]
      cases hbeq : (k' == k0) with
      | false => simpa using ih
      | true => simp

/-- `StorageNetwork.register_node` (`storage_network.py` lines 175-193):
builds a fresh node record (usage 0, online) and stores it under
`node_id`, last write wins. -/
def register_node (net : StorageNetwork) (node_id miner_address region : String)
    (storage_capacity : ℤ) (reputation : ℚ) : StorageNode × StorageNetwork :=
  let node : StorageNode :=
    { node_id := node_id
      address := miner_address
      region := region
      storage_capacity := storage_capacity
      storage_used := 0
      reputation := reputation
      is_online := true }
  (node, { net with nodes := dictSet net.nodes node_id node })

/-- `StorageNetwork.upload_video` (`storage_network.py` lines 195-213):
builds a fresh `VideoMetadata` (default statuses, empty replica and
profile lists) and stores it under `video_cid`, unconditionally
overwriting any existing record.  The wall-clock `uploaded_at` stamp is
passed in as `now`. -/
def upload_video (net : StorageNetwork) (video_cid creator_id title : String)
    (duration_seconds size_bytes : ℤ) (now : String) :
    VideoMetadata × StorageNetwork :=
  let metadata : VideoMetadata :=
    { video_cid := video_cid
      creator_id := creator_id
      title := title
      duration_seconds := duration_seconds
      original_size_bytes := size_bytes
      storage_status := StorageStatus.UNKNOWN
      transcoding_status := TranscodingStatus.NOT_STARTED
      uploaded_at := now
      available_on_network := []
      transcoded_profiles := []
      replication_factor := 3
      total_cost_storage := 0
      total_cost_transcoding := 0 }
  (metadata, { net with videos := dictSet net.videos video_cid metadata })

/-- `StorageNetwork.store_video_replica` (`storage_network.py` lines
215-242): false when the video or node is unknown or the node lacks
capacity; otherwise appends the node to the video's replica list and
charges its usage unless the node already holds a replica, then advances
the storage status to REPLICATED once the replica list reaches the
replication factor. -/
def store_video_replica (net : StorageNetwork) (video_cid node_id : String) :
    Bool × StorageNetwork :=
  match net.videos.lookup video_cid with
  | none => (false, net)
  | some video =>
    match net.nodes.lookup node_id with
    | none => (false, net)
    | some node =>
      if node.storage_capacity < node.storage_used + video.original_size_bytes then
        (false, net)
      else if node_id ∈ video.available_on_network then
        let video1 :=
          if video.replication_factor ≤ (video.available_on_network.length : ℤ) then
            { video with storage_status := StorageStatus.REPLICATED }
          else video
        (true, { net with videos := dictSet net.videos video_cid video1 })
      else
        let video0 :=
          { video with available_on_network := video.available_on_network ++ [node_id] }
        let node0 :=
          { node with storage_used := node.storage_used + video.original_size_bytes }
        let video1 :=
          if video0.replication_factor ≤ (video0.available_on_network.length : ℤ) then
            { video0 with storage_status := StorageStatus.REPLICATED }
          else video0
        (true, { net with videos := dictSet net.videos video_cid video1,
                          nodes := dictSet net.nodes node_id node0 })

/-- `StorageNetwork.transcode_video` (`storage_network.py` lines 244-257):
replaces the profile list wholesale and marks transcoding COMPLETED. -/
def transcode_video (net : StorageNetwork) (video_cid : String)
    (profiles : List TranscodingProfile) : Bool × StorageNetwork :=
  match net.videos.lookup video_cid with
  | none => (false, net)
  | some video =>
    let video1 := { video with transcoded_profiles := profiles,
                               transcoding_status := TranscodingStatus.COMPLETED }
    (true, { net with videos := dictSet net.videos video_cid video1 })

/-- `StorageNetwork.verify_video_storage` (`storage_network.py` lines
259-281): recounts online replicas, requires transcoding COMPLETED, and on
success upgrades the storage status to VERIFIED.  The Python body indexes
`self.nodes[n]` unguarded; for networks built by the operations of this
module every id on a replica list is a registered node, so the guarded
lookup used here agrees with it. -/
def verify_video_storage (net : StorageNetwork) (video_cid : String)
    (min_replicas : ℤ) : Bool × StorageNetwork :=
  match net.videos.lookup video_cid with
  | none => (false, net)
  | some video =>
    let available := (video.available_on_network.filter
      (fun n => (((net.nodes.lookup n).map StorageNode.is_online).getD false))).length
    if (available : ℤ) < min_replicas then (false, net)
    else if video.transcoding_status ≠ TranscodingStatus.COMPLETED then (false, net)
    else
      let video1 := { video with storage_status := StorageStatus.VERIFIED }
      (true, { net with videos := dictSet net.videos video_cid video1 })

/-- `StorageNetwork.offline_node` (`storage_network.py` lines 291-296):
marks a registered node offline, false on an unknown id. -/
def offline_node (net : StorageNetwork) (node_id : String) : Bool × StorageNetwork :=
  match net.nodes.lookup node_id with
  | none => (false, net)
  | some node =>
    let node1 := { node with is_online := false }
    (true, { net with nodes := dictSet net.nodes node_id node1 })

/-- One call to a mutating `StorageNetwork` method, for reachability
arguments over operation sequences. -/
inductive NetOp
  | register (node_id miner_address region : String) (storage_capacity : ℤ)
      (reputation : ℚ)
  | upload (video_cid creator_id title : String) (duration_seconds size_bytes : ℤ)
      (now : String)
  | storeReplica (video_cid node_id : String)
  | transcode (video_cid : String) (profiles : List TranscodingProfile)
  | verify (video_cid : String) (min_replicas : ℤ)
  | offline (node_id : String)
deriving DecidableEq, Repr

/-- The state transition of one `NetOp` (return values dropped). -/
def applyOp (net : StorageNetwork) : NetOp → StorageNetwork
  | NetOp.register id addr region cap rep => (register_node net id addr region cap rep).2
  | NetOp.upload cid creator title dur size now =>
      (upload_video net cid creator title dur size now).2
  | NetOp.storeReplica cid nid => (store_video_replica net cid nid).2
  | NetOp.transcode cid profiles => (transcode_video net cid profiles).2
  | NetOp.verify cid mr => (verify_video_storage net cid mr).2
  | NetOp.offline nid => (offline_node net nid).2

/-- Run a sequence of operations from a given network state. -/
def runFrom (net : StorageNetwork) (ops : List NetOp) : StorageNetwork :=
  ops.foldl applyOp net

/-- Run a sequence of operations from the empty network. -/
def runOps (ops : List NetOp) : StorageNetwork :=
  runFrom emptyNetwork ops

/-- A `register` call with non-negative capacity (any other op counts as
well-behaved trivially). -/
def NetOp.capNonneg : NetOp → Bool
  | NetOp.register _ _ _ cap _ => decide (0 ≤ cap)
  | _ => true

/-- True when the op is a `register_node` call for the given node id. -/
def NetOp.isRegisterOf (id : String) : NetOp → Bool
  | NetOp.register id' _ _ _ _ => decide (id' = id)
  | _ => false

/-- The failure condition of `store_video_replica`: unknown video, unknown
node, or insufficient free capacity on the node. -/
def storeReplicaFails (net : StorageNetwork) (video_cid node_id : String) : Bool :=
  match net.videos.lookup video_cid, net.nodes.lookup node_id with
  | some video, some node =>
      decide (node.storage_capacity < node.storage_used + video.original_size_bytes)
  | _, _ => true

/-- Every registered node uses no more storage than its capacity. -/
def NodesWithinCapacity (net : StorageNetwork) : Prop :=
  ∀ id n, net.nodes.lookup id = some n → n.storage_used ≤ n.storage_capacity

/-- SHA-256 over a string, modelled as an injective stand-in: the digest is
identified with the hashed byte string itself (collision-free reading). -/
def sha256s (s : String) : String := s

/-- `CryptoUtils.hash_public_key` (`utils.py` lines 16-28). -/
def hash_public_key (public_key : String) : String := sha256s public_key

/-- Python string interpolation of an `Optional[str]`: `None` prints as
the literal "None". -/
def pyOptStr : Option String → String
  | none => "None"
  | some s => s

/-- `ValidationResult` dataclass (`mining.py` lines 46-61).  The
wall-clock `validation_duration_seconds` diagnostic is not modelled. -/
structure ValidationResult where
  is_valid : Bool
  video_cid : String
  validation_timestamp : String
  validator_address : String
  error_message : Option String := none
  replicas_found : ℤ := 0
  transcoding_complete : Bool := false
  transcoding_formats : List String := []
deriving DecidableEq, Repr

/-- The online-replica count `validate_video_storage` computes
(`mining.py` lines 125-129): members of `available_on_network` that are
registered and online. -/
def onlineReplicaCount (net : StorageNetwork) (video : VideoMetadata) : ℕ :=
  (video.available_on_network.filter
    (fun nid => (((net.nodes.lookup nid).map StorageNode.is_online).getD false))).length

/-- `validate_video_storage` (`mining.py` lines 64-167): a read-only query
that short-circuits through three checks — video registered, enough online
replicas, at least one transcoding profile — and on full pass reports the
replica count, the transcoding-complete flag and the format names.  The
wall-clock validation timestamp is passed in as `validation_timestamp`. -/
def validate_video_storage (video_cid validator_address : String)
    (storage_network : StorageNetwork) (min_replicas : ℤ)
    (validation_timestamp : String) : ValidationResult :=
  match storage_network.videos.lookup video_cid with
  | none =>
    { is_valid := false
      video_cid := video_cid
      validation_timestamp := validation_timestamp
      validator_address := validator_address
      error_message := some ("Video " ++ video_cid ++ " not found in storage network")
      replicas_found := 0
      transcoding_complete := false
      transcoding_formats := [] }
  | some video_metadata =>
    let online_replicas := onlineReplicaCount storage_network video_metadata
    if (online_replicas : ℤ) < min_replicas then
      { is_valid := false
        video_cid := video_cid
        validation_timestamp := validation_timestamp
        validator_address := validator_address
        error_message := some ("Insufficient replicas: " ++ toString online_replicas
          ++ " < " ++ toString min_replicas)
        replicas_found := (online_replicas : ℤ)
        transcoding_complete := false
        transcoding_formats := [] }
    else
      let transcoding_formats :=
        video_metadata.transcoded_profiles.map TranscodingProfile.format_name
      if video_metadata.transcoded_profiles = [] then
        { is_valid := false
          video_cid := video_cid
          validation_timestamp := validation_timestamp
          validator_address := validator_address
          error_message := some "Video not transcoded to required formats"
          replicas_found := (online_replicas : ℤ)
          transcoding_complete := false
          transcoding_formats := [] }
      else
        { is_valid := true
          video_cid := video_cid
          validation_timestamp := validation_timestamp
          validator_address := validator_address
          error_message := none
          replicas_found := (online_replicas : ℤ)
          transcoding_complete := true
          transcoding_formats := transcoding_formats }

/-- `DynamicRewardConfig` dataclass (`mining.py` lines 170-201). -/
structure DynamicRewardConfig where
  base_subsidy : ℚ := 50
  reward_per_second : ℚ := 1/10
  reward_per_profile : ℚ := 5
  reward_per_replica : ℚ := 2
  creator_percentage : ℚ := 40
  miner_percentage : ℚ := 35
  viewer_percentage : ℚ := 15
  platform_percentage : ℚ := 10
  max_reward_per_block : ℚ := 1000
  min_reward_per_block : ℚ := 10
deriving DecidableEq, Repr

/-- The default `DynamicRewardConfig()`. -/
def defaultRewardConfig : DynamicRewardConfig := {}

/-- The raw (pre-clamp) dynamic reward sum of `calculate_dynamic_reward`
(`mining.py` lines 239-257). -/
def rawDynamicReward (video_metadata : VideoMetadata)
    (validation_result : ValidationResult) (config : DynamicRewardConfig) : ℚ :=
  config.base_subsidy
    + (video_metadata.duration_seconds : ℚ) * config.reward_per_second
    + (validation_result.transcoding_formats.length : ℚ) * config.reward_per_profile
    + (max 0 (validation_result.replicas_found - 1) : ℤ) * config.reward_per_replica

/-- `calculate_dynamic_reward` (`mining.py` lines 204-263): base subsidy
plus length, transcoding and replication bonuses, clamped to the
configured bounds (upper clamp first, then lower), rounded to 8
decimals. -/
def calculate_dynamic_reward (video_metadata : VideoMetadata)
    (validation_result : ValidationResult) (config : DynamicRewardConfig) : ℚ :=
  pyRound8 (max (min (rawDynamicReward video_metadata validation_result config)
    config.max_reward_per_block) config.min_reward_per_block)

/-- `StorageProof.to_dict` (`storage_network.py` lines 111-123), the
summary stored in block metadata; `computation_time` not modelled. -/
structure StorageProofSummary where
  video_cid : String
  miner_address : String
  timestamp : String
  storage_nodes : ℕ
  transcoding_profiles : ℕ
  proof_hash : String
  is_valid : Bool
  storage_replication : ℤ
deriving DecidableEq, Repr

/-- `StorageProof.to_dict` (`storage_network.py` lines 111-123). -/
def StorageProof.to_dict (p : StorageProof) : StorageProofSummary :=
  { video_cid := p.video_cid
    miner_address := p.miner_address
    timestamp := p.timestamp
    storage_nodes := p.storage_nodes.length
    transcoding_profiles := p.transcoding_profiles.length
    proof_hash := p.proof_hash
    is_valid := p.is_valid
    storage_replication := p.storage_replication }

/-- `create_storage_proof` (`mining.py` lines 266-320): builds a
`StorageProof` with `proof_hash = SHA-256(cid + miner + nonce)` and the
storage metadata dict.  The random uuid nonce and the wall-clock
timestamp are passed in as `proof_nonce` and `now`. -/
def create_storage_proof (video_cid miner_address : String)
    (validation_result : ValidationResult) (video_metadata : VideoMetadata)
    (proof_nonce now : String) : StorageProof :=
  { video_cid := video_cid
    miner_address := miner_address
    timestamp := now
    storage_nodes := []
    transcoding_profiles := video_metadata.transcoded_profiles
    proof_nonce := proof_nonce
    proof_hash := sha256s (video_cid ++ miner_address ++ proof_nonce)
    is_valid := validation_result.is_valid
    storage_replication := validation_result.replicas_found
    storage_data := some
      { video_cid := video_cid
        video_length := video_metadata.duration_seconds
        video_size := video_metadata.original_size_bytes
        replicas := validation_result.replicas_found
        profiles := validation_result.transcoding_formats
        validation_timestamp := validation_result.validation_timestamp } }

/-- Modelled from the spec: `block.py` is not under `src/`.  A reward
beneficiary per section 3 of the design document — role, hashed address,
percentage and amount. -/
structure Beneficiary where
  role : String
  address : String
  percentage : ℚ
  amount : ℚ
deriving DecidableEq, Repr

/-- Modelled from the spec: `block.py` is not under `src/`.  `BlockReward`
per section 3 — base subsidy, fee reward, total, consensus tag and the
four beneficiaries in order. -/
structure BlockReward where
  base_subsidy : ℚ
  fee_reward : ℚ
  total_reward : ℚ
  consensus_type : String
  beneficiaries : List Beneficiary
deriving DecidableEq, Repr

/-- Modelled from the spec: `block.py` is not under `src/`.  `Block` per
sections 3 and 4.6, restricted to the fields the mining pipeline
(`mine_block`, `mining.py` lines 476-488) populates; the lazily cached
block hash commits to all of these and is not separately modelled. -/
structure Block where
  block_number : ℤ
  timestamp : String
  miner_address : String
  previous_hash : String
  transactions : List Transaction
  difficulty : ℤ
  nonce : ℤ
  video_proofs : List (String × String) := []
  metadata_storage_proof : Option StorageProofSummary := none
  block_reward : Option BlockReward := none
deriving DecidableEq, Repr

/-- Modelled from the spec: `block.py` is not under `src/`.
`Block.generate_reward` per section 4.6 delegates the split of its base
subsidy to the reward-split calculator (section 4.2) and stores the
resulting `BlockReward` on the block; the fee model is left open by the
spec (section 9) and the pipeline passes only the dynamic reward as base
subsidy, so `fee_reward` is 0 here.  A malformed percentage quadruple
propagates the calculator's `ValueError`. -/
def generate_reward (block : Block) (base_subsidy : ℚ) (creator_address : String)
    (creator_percentage miner_percentage viewer_percentage platform_percentage : ℚ)
    (viewer_address platform_address : String) : Except String (Block × BlockReward) :=
  match calculate_reward_split base_subsidy creator_percentage miner_percentage
      viewer_percentage platform_percentage with
  | Except.error e => Except.error e
  | Except.ok split =>
    let reward : BlockReward :=
      { base_subsidy := base_subsidy
        fee_reward := 0
        total_reward := base_subsidy
        consensus_type := "proof_of_storage"
        beneficiaries :=
          [ { role := "creator", address := creator_address,
              percentage := creator_percentage, amount := split.creator }
          , { role := "miner", address := block.miner_address,
              percentage := miner_percentage, amount := split.miner }
          , { role := "viewer", address := viewer_address,
              percentage := viewer_percentage, amount := split.viewer }
          , { role := "platform", address := platform_address,
              percentage := platform_percentage, amount := split.platform } ] }
    Except.ok ({ block with block_reward := some reward }, reward)

/-- The typed failures `mine_block` can raise: `ValidationError`,
`MiningError` (`mining.py` lines 36-43) and a propagated `ValueError`
from the reward split. -/
inductive MiningFailure
  | validationError (msg : String)
  | miningError (msg : String)
  | valueError (msg : String)
deriving DecidableEq, Repr

/-- `mine_block` (`mining.py` lines 323-521): validate the video with
`min_replicas=1` (failure raises `ValidationError` and nothing else
happens), re-read the metadata (`MiningError` if gone), build the storage
proof, compute the dynamic reward, assemble the block with a synthetic
STORAGE_PROOF transaction prepended, then attach the reward distribution.
The function never writes to the storage network, which is threaded
through unchanged as the second component of the result; wall-clock
timestamps, the uuid transaction id and proof nonce, and the time-derived
block nonce enter as the parameters `now`, `tx_id`, `proof_nonce` and
`block_nonce`. -/
def mine_block (block_number : ℤ) (miner_address previous_block_hash video_cid
    creator_id : String) (pending_transactions : List Transaction)
    (storage_network : StorageNetwork) (reward_config : DynamicRewardConfig)
    (difficulty : ℤ) (now tx_id proof_nonce : String) (block_nonce : ℤ) :
    Except MiningFailure (Block × StorageProof × ValidationResult) × StorageNetwork :=
  let validation_result :=
    validate_video_storage video_cid miner_address storage_network 1 now
  if validation_result.is_valid then
    match storage_network.videos.lookup video_cid with
    | none =>
      (Except.error (MiningFailure.miningError
        ("Video metadata not found for " ++ video_cid)), storage_network)
    | some video_metadata =>
      let storage_proof := create_storage_proof video_cid miner_address
        validation_result video_metadata proof_nonce now
      let block_reward_amount := calculate_dynamic_reward video_metadata
        validation_result reward_config
      let storage_proof_tx : Transaction :=
        { tx_id := tx_id
          timestamp := now
          tx_type := TransactionType.STORAGE_PROOF
          sender_public_key_hash := miner_address
          receiver_public_key_hash := creator_id
          creator_id := creator_id
          amount := 0
          currency := "SOCIORA"
          video_hash := video_cid
          video_length := video_metadata.duration_seconds
          video_size := video_metadata.original_size_bytes
          storage_proof := some storage_proof.proof_hash
          storage_proof_signature := some (hash_public_key miner_address)
          nonce := 1
          gas_price := 1/1000
          gas_limit := 100000
          status := TransactionStatus.PENDING
          block_hash := none
          block_number := none
          metadata := []
          tx_hash_cache := none }
      let block : Block :=
        { block_number := block_number
          timestamp := now
          miner_address := miner_address
          previous_hash := previous_block_hash
          transactions := storage_proof_tx :: pending_transactions
          difficulty := difficulty
          nonce := block_nonce
          video_proofs := [(video_cid, storage_proof.proof_hash)]
          metadata_storage_proof := some storage_proof.to_dict
          block_reward := none }
      match generate_reward block block_reward_amount creator_id
          reward_config.creator_percentage reward_config.miner_percentage
          reward_config.viewer_percentage reward_config.platform_percentage
          miner_address
          "0000000000000000000000000000000000000000000000000000000000000001" with
      | Except.error e => (Except.error (MiningFailure.valueError e), storage_network)
      | Except.ok (block1, _) =>
        (Except.ok (block1, storage_proof, validation_result), storage_network)
  else
    (Except.error (MiningFailure.validationError
      ("Video validation failed: " ++ pyOptStr validation_result.error_message)),
      storage_network)

/-- C1 (amended): for every `total_reward ≥ 0` and non-negative
percentages summing to exactly 100, `calculate_reward_split` returns the
four amounts `round(total_reward * pct/100, 8)` and their sum differs from
`total_reward` by at most 4e-6 (1e-6 per beneficiary times 4).  The
original claim's tolerance-band hypothesis (sum within 0.01 of 100) is
refuted by `c1_conservation_counterexample`. -/
theorem c1_reward_split_conservation (total_reward creator miner viewer platform : ℚ)
    (htot : 0 ≤ total_reward) (hc : 0 ≤ creator) (hm : 0 ≤ miner) (hv : 0 ≤ viewer)
    (hp : 0 ≤ platform) (hsum : creator + miner + viewer + platform = 100) :
    calculate_reward_split total_reward creator miner viewer platform =
      Except.ok
        { creator := pyRound8 (total_reward * (creator / 100))
          miner := pyRound8 (total_reward * (miner / 100))
          viewer := pyRound8 (total_reward * (viewer / 100))
          platform := pyRound8 (total_reward * (platform / 100)) } ∧
    |pyRound8 (total_reward * (creator / 100)) + pyRound8 (total_reward * (miner / 100))
      + pyRound8 (total_reward * (viewer / 100))
      + pyRound8 (total_reward * (platform / 100)) - total_reward| ≤ 4/1000000 := by
  constructor
  · unfold calculate_reward_split
    rw [hsum]
    norm_num
  · have hx : total_reward * (creator / 100) + total_reward * (miner / 100)
        + total_reward * (viewer / 100) + total_reward * (platform / 100)
        = total_reward := by
      have : total_reward * (creator / 100) + total_reward * (miner / 100)
          + total_reward * (viewer / 100) + total_reward * (platform / 100)
          = total_reward * ((creator + miner + viewer + platform) / 100) := by ring
      rw [this, hsum]
      norm_num
    have b1 := abs_pyRound8_sub_le (total_reward * (creator / 100))
    have b2 := abs_pyRound8_sub_le (total_reward * (miner / 100))
    have b3 := abs_pyRound8_sub_le (total_reward * (viewer / 100))
    have b4 := abs_pyRound8_sub_le (total_reward * (platform / 100))
    have hdec : pyRound8 (total_reward * (creator / 100))
        + pyRound8 (total_reward * (miner / 100))
        + pyRound8 (total_reward * (viewer / 100))
        + pyRound8 (total_reward * (platform / 100)) - total_reward
        = (pyRound8 (total_reward * (creator / 100)) - total_reward * (creator / 100))
        + ((pyRound8 (total_reward * (miner / 100)) - total_reward * (miner / 100))
        + ((pyRound8 (total_reward * (viewer / 100)) - total_reward * (viewer / 100))
        + (pyRound8 (total_reward * (platform / 100))
            - total_reward * (platform / 100)))) := by
      linear_combination hx
    set a := pyRound8 (total_reward * (creator / 100)) - total_reward * (creator / 100)
      with ha
    set b := pyRound8 (total_reward * (miner / 100)) - total_reward * (miner / 100)
      with hb
    set c := pyRound8 (total_reward * (viewer / 100)) - total_reward * (viewer / 100)
      with hc'
    set d := pyRound8 (total_reward * (platform / 100)) - total_reward * (platform / 100)
      with hd
    rw [hdec]
    have habs : |a + (b + (c + d))| ≤ |a| + |b| + |c| + |d| := by
      calc |a + (b + (c + d))| ≤ |a| + |b + (c + d)| := abs_add _ _
        _ ≤ |a| + (|b| + |c + d|) := by linarith [abs_add b (c + d)]
        _ ≤ |a| + (|b| + (|c| + |d|)) := by linarith [abs_add c d]
        _ = |a| + |b| + |c| + |d| := by ring
    linarith [habs, b1, b2, b3, b4]

/-- C1 counterexample: percentages (40.01, 35, 15, 10) sum to 100.01,
inside the 0.01 tolerance the claim quantifies over, and the split of
`total_reward = 1` succeeds with amounts summing to 1.0001 — off by
1e-4, far beyond the claimed 4e-6 bound. -/
theorem c1_conservation_counterexample :
    |((4001:ℚ)/100 + 35 + 15 + 10) - 100| ≤ 1/100 ∧ (0:ℚ) ≤ 1 ∧
    calculate_reward_split 1 (4001/100) 35 15 10 =
      Except.ok { creator := 4001/10000, miner := 7/20, viewer := 3/20,
                  platform := 1/10 } ∧
    ¬ (|(4001:ℚ)/10000 + 7/20 + 3/20 + 1/10 - 1| ≤ 4/1000000) := by
  refine ⟨by norm_num [abs_le], by norm_num, ?_, by norm_num [abs_le]⟩
  unfold calculate_reward_split
  rw [if_neg (by norm_num [abs_le])]
  norm_num [pyRound8, rne]

/-- C1 witness: the amended conservation theorem applied at
`total_reward = 100` with the default 40/35/15/10 percentages. -/
theorem c1_reward_split_conservation_witness :
    ((0:ℚ) ≤ 100 ∧ (0:ℚ) ≤ 40 ∧ (0:ℚ) ≤ 35 ∧ (0:ℚ) ≤ 15 ∧ (0:ℚ) ≤ 10 ∧
      (40:ℚ) + 35 + 15 + 10 = 100) ∧
    (calculate_reward_split 100 40 35 15 10 =
      Except.ok
        { creator := pyRound8 ((100:ℚ) * (40 / 100))
          miner := pyRound8 ((100:ℚ) * (35 / 100))
          viewer := pyRound8 ((100:ℚ) * (15 / 100))
          platform := pyRound8 ((100:ℚ) * (10 / 100)) } ∧
    |pyRound8 ((100:ℚ) * (40 / 100)) + pyRound8 ((100:ℚ) * (35 / 100))
      + pyRound8 ((100:ℚ) * (15 / 100)) + pyRound8 ((100:ℚ) * (10 / 100))
      - 100| ≤ 4/1000000) :=
  ⟨⟨by norm_num, by norm_num, by norm_num, by norm_num, by norm_num, by norm_num⟩,
    c1_reward_split_conservation 100 40 35 15 10 (by norm_num) (by norm_num)
      (by norm_num) (by norm_num) (by norm_num) (by norm_num)⟩

/-- C6 (amended): `calculate_reward_split` fails exactly when the
percentage sum differs from 100 by more than 0.01 — it does not check
sign, so a violated non-negativity precondition alone (see
`c6_rejection_counterexample`) does not make it fail — while
`validate_percentages` is false for exactly the violating inputs: a
negative percentage or an out-of-tolerance sum. -/
theorem c6_distribution_rejection (total creator miner viewer platform : ℚ) :
    (exceptFails (calculate_reward_split total creator miner viewer platform) = true ↔
      |creator + miner + viewer + platform - 100| > 1/100) ∧
    (validate_percentages creator miner viewer platform = false ↔
      (creator < 0 ∨ miner < 0 ∨ viewer < 0 ∨ platform < 0 ∨
        |creator + miner + viewer + platform - 100| > 1/100)) := by
  constructor
  · unfold calculate_reward_split
    by_cases h : |creator + miner + viewer + platform - 100| > 1/100
    · rw [if_pos h]
      simpa [exceptFails] using h
    · rw [if_neg h]
      simpa [exceptFails] using h
  · unfold validate_percentages
    by_cases hneg : creator < 0 ∨ miner < 0 ∨ viewer < 0 ∨ platform < 0
    · rw [if_pos hneg]
      simp only [iff_true]
      tauto
    · simp only [if_neg hneg, decide_eq_false_iff_not, not_le]
      push_neg at hneg
      constructor
      · intro h
        exact Or.inr (Or.inr (Or.inr (Or.inr h)))
      · rintro (h | h | h | h | h)
        · exact absurd h (not_lt.mpr hneg.1)
        · exact absurd h (not_lt.mpr hneg.2.1)
        · exact absurd h (not_lt.mpr hneg.2.2.1)
        · exact absurd h (not_lt.mpr hneg.2.2.2)
        · exact h

/-- C6 counterexample: the quadruple (-1, 51, 25, 25) violates the
precondition (negative percentage) yet `calculate_reward_split` does not
fail, because its sum is exactly 100 — refuting "fails whenever the
precondition is violated". -/
theorem c6_rejection_counterexample :
    (-1:ℚ) < 0 ∧
    exceptFails (calculate_reward_split 100 (-1) 51 25 25) = false ∧
    validate_percentages (-1) 51 25 25 = false := by
  refine ⟨by norm_num, ?_, ?_⟩
  · unfold calculate_reward_split exceptFails
    norm_num
  · unfold validate_percentages
    norm_num

/-- Video record used for the dynamic-reward claim instances: zero
duration, zero size. -/
def c3Video : VideoMetadata :=
  { video_cid := "cid0", creator_id := "creator0", title := "t",
    duration_seconds := 0, original_size_bytes := 0 }

/-- Validation record used for the dynamic-reward claim instances: zero
replicas, no transcoding formats. -/
def c3Validation : ValidationResult :=
  { is_valid := true, video_cid := "cid0", validation_timestamp := "ts",
    validator_address := "addr0", replicas_found := 0,
    transcoding_complete := false, transcoding_formats := [] }

/-- A configuration whose lower clamp bound 1.5e-9 is not representable in
8 decimal places. -/
def c3Config : DynamicRewardConfig :=
  { base_subsidy := 0, reward_per_second := 0, reward_per_profile := 0,
    reward_per_replica := 0, min_reward_per_block := 3/2000000000,
    max_reward_per_block := 1000 }

/-- C3 (amended): `calculate_dynamic_reward` returns
`round(clamp(base_subsidy + duration*per_second + profiles*per_profile +
max(0, replicas-1)*per_replica, min, max), 8)`, and whenever the two clamp
bounds are themselves exact 8-decimal values (as the defaults 10 and 1000
are) the result stays within them.  For bounds with more than 8 decimals
the final rounding can leave the band (see
`c3_clamp_counterexample`). -/
theorem c3_dynamic_reward_clamped (vm : VideoMetadata) (vr : ValidationResult)
    (config : DynamicRewardConfig)
    (hdur : 0 ≤ vm.duration_seconds) (hrep : 0 ≤ vr.replicas_found)
    (hminmax : config.min_reward_per_block ≤ config.max_reward_per_block)
    (hmin8 : pyRound8 config.min_reward_per_block = config.min_reward_per_block)
    (hmax8 : pyRound8 config.max_reward_per_block = config.max_reward_per_block) :
    calculate_dynamic_reward vm vr config =
      pyRound8 (max (min (config.base_subsidy
        + (vm.duration_seconds : ℚ) * config.reward_per_second
        + (vr.transcoding_formats.length : ℚ) * config.reward_per_profile
        + (max 0 (vr.replicas_found - 1) : ℤ) * config.reward_per_replica)
        config.max_reward_per_block) config.min_reward_per_block) ∧
    config.min_reward_per_block ≤ calculate_dynamic_reward vm vr config ∧
    calculate_dynamic_reward vm vr config ≤ config.max_reward_per_block := by
  refine ⟨rfl, ?_, ?_⟩
  · exact le_pyRound8 _ _ hmin8 (le_max_right _ _)
  · exact pyRound8_le _ _ hmax8 (max_le (min_le_right _ _) hminmax)

/-- C3 counterexample: with clamp bounds [1.5e-9, 1000] and all weights
zero, the clamped value is 1.5e-9 but the final `round(·, 8)` collapses it
to 0, strictly below `min_reward_per_block` — refuting "never below
`min_reward_per_block`" for general configurations. -/
theorem c3_clamp_counterexample :
    0 ≤ c3Video.duration_seconds ∧ 0 ≤ c3Validation.replicas_found ∧
    c3Config.min_reward_per_block ≤ c3Config.max_reward_per_block ∧
    calculate_dynamic_reward c3Video c3Validation c3Config <
      c3Config.min_reward_per_block := by
  refine ⟨by norm_num [c3Video], by norm_num [c3Validation],
    by norm_num [c3Config], ?_⟩
  norm_num [calculate_dynamic_reward, rawDynamicReward, c3Video, c3Validation,
    c3Config, pyRound8, rne]

/-- C3 witness: the amended theorem applied to the zero-duration,
zero-profile video under the default configuration (bounds 10 and 1000,
both exact 8-decimal values): the reward is clamped up to 10. -/
theorem c3_dynamic_reward_clamped_witness :
    (0 ≤ c3Video.duration_seconds ∧ 0 ≤ c3Validation.replicas_found ∧
      defaultRewardConfig.min_reward_per_block ≤
        defaultRewardConfig.max_reward_per_block ∧
      pyRound8 defaultRewardConfig.min_reward_per_block =
        defaultRewardConfig.min_reward_per_block ∧
      pyRound8 defaultRewardConfig.max_reward_per_block =
        defaultRewardConfig.max_reward_per_block) ∧
    (calculate_dynamic_reward c3Video c3Validation defaultRewardConfig =
      pyRound8 (max (min (defaultRewardConfig.base_subsidy
        + (c3Video.duration_seconds : ℚ) * defaultRewardConfig.reward_per_second
        + (c3Validation.transcoding_formats.length : ℚ)
            * defaultRewardConfig.reward_per_profile
        + (max 0 (c3Validation.replicas_found - 1) : ℤ)
            * defaultRewardConfig.reward_per_replica)
        defaultRewardConfig.max_reward_per_block)
        defaultRewardConfig.min_reward_per_block) ∧
    defaultRewardConfig.min_reward_per_block ≤
      calculate_dynamic_reward c3Video c3Validation defaultRewardConfig ∧
    calculate_dynamic_reward c3Video c3Validation defaultRewardConfig ≤
      defaultRewardConfig.max_reward_per_block) :=
  ⟨⟨by norm_num [c3Video], by norm_num [c3Validation],
      by norm_num [defaultRewardConfig],
      by norm_num [defaultRewardConfig, pyRound8, rne],
      by norm_num [defaultRewardConfig, pyRound8, rne]⟩,
    c3_dynamic_reward_clamped c3Video c3Validation defaultRewardConfig
      (by norm_num [c3Video]) (by norm_num [c3Validation])
      (by norm_num [defaultRewardConfig])
      (by norm_num [defaultRewardConfig, pyRound8, rne])
      (by norm_num [defaultRewardConfig, pyRound8, rne])⟩

/-- A concrete transaction used to instantiate the hashing claims. -/
def c2Tx : Transaction :=
  { tx_id := "tx1", timestamp := "2024-01-01T00:00:00Z",
    tx_type := TransactionType.VIDEO_UPLOAD,
    sender_public_key_hash := "sender", receiver_public_key_hash := "receiver",
    creator_id := "creator", amount := 5, video_hash := "QmVid",
    video_length := 10, video_size := 1000 }

/-- C2 (amended): `compute_tx_hash` is content-addressed over all fields
except `status` and the cached hash itself — mutating `status` never
changes the digest, but `block_hash` and `block_number` ARE hashed, so
mutating either to a different value changes the digest. -/
theorem c2_tx_hash_exclusion (t : Transaction) (s : TransactionStatus)
    (bh : Option String) (bn : Option ℤ)
    (hbh : bh ≠ t.block_hash) (hbn : bn ≠ t.block_number) :
    compute_tx_hash { t with status := s } = compute_tx_hash t ∧
    compute_tx_hash { t with block_hash := bh } ≠ compute_tx_hash t ∧
    compute_tx_hash { t with block_number := bn } ≠ compute_tx_hash t := by
  refine ⟨rfl, ?_, ?_⟩
  · intro h
    exact hbh (congrArg TxHashContent.block_hash h)
  · intro h
    exact hbn (congrArg TxHashContent.block_number h)

/-- C2 counterexample: setting `block_number` on a pending transaction
(as block inclusion does) changes the digest `compute_tx_hash` returns,
and so does setting `block_hash` — refuting the claimed exclusion of
these two fields from the hash. -/
theorem c2_tx_hash_exclusion_counterexample :
    compute_tx_hash { c2Tx with block_number := some 7 } ≠ compute_tx_hash c2Tx ∧
    compute_tx_hash { c2Tx with block_hash := some "bh7" } ≠ compute_tx_hash c2Tx ∧
    compute_tx_hash { c2Tx with status := TransactionStatus.CONFIRMED } =
      compute_tx_hash c2Tx := by
  refine ⟨?_, ?_, rfl⟩ <;>
    simp [compute_tx_hash, c2Tx]

/-- C2 witness: the amended theorem applied to the concrete transaction
`c2Tx` with a confirmed status, a block hash and a block number. -/
theorem c2_tx_hash_exclusion_witness :
    (some "b" ≠ c2Tx.block_hash ∧ some (3:ℤ) ≠ c2Tx.block_number) ∧
    (compute_tx_hash { c2Tx with status := TransactionStatus.CONFIRMED } =
      compute_tx_hash c2Tx ∧
    compute_tx_hash { c2Tx with block_hash := some "b" } ≠ compute_tx_hash c2Tx ∧
    compute_tx_hash { c2Tx with block_number := some 3 } ≠ compute_tx_hash c2Tx) :=
  ⟨⟨by simp [c2Tx], by simp [c2Tx]⟩,
    c2_tx_hash_exclusion c2Tx TransactionStatus.CONFIRMED (some "b") (some 3)
      (by simp [c2Tx]) (by simp [c2Tx])⟩

/-- C4: `validate_video_storage` short-circuits through its three checks
in source order — unknown CID first (reporting "not found"), then the
online-replica count against `min_replicas` (reporting the count), then
the presence of at least one transcoding profile (even when replicas
suffice) — and on full pass reports `is_valid=true`, the online-replica
count, `transcoding_complete=true` and the format names. -/
theorem c4_validation_gating (video_cid validator_address ts : String)
    (net : StorageNetwork) (min_replicas : ℤ) :
    (net.videos.lookup video_cid = none →
      validate_video_storage video_cid validator_address net min_replicas ts =
        { is_valid := false, video_cid := video_cid, validation_timestamp := ts,
          validator_address := validator_address,
          error_message := some ("Video " ++ video_cid
            ++ " not found in storage network"),
          replicas_found := 0, transcoding_complete := false,
          transcoding_formats := [] }) ∧
    (∀ vm, net.videos.lookup video_cid = some vm →
      (onlineReplicaCount net vm : ℤ) < min_replicas →
      validate_video_storage video_cid validator_address net min_replicas ts =
        { is_valid := false, video_cid := video_cid, validation_timestamp := ts,
          validator_address := validator_address,
          error_message := some ("Insufficient replicas: "
            ++ toString (onlineReplicaCount net vm) ++ " < "
            ++ toString min_replicas),
          replicas_found := (onlineReplicaCount net vm : ℤ),
          transcoding_complete := false, transcoding_formats := [] }) ∧
    (∀ vm, net.videos.lookup video_cid = some vm →
      ¬ ((onlineReplicaCount net vm : ℤ) < min_replicas) →
      vm.transcoded_profiles = [] →
      validate_video_storage video_cid validator_address net min_replicas ts =
        { is_valid := false, video_cid := video_cid, validation_timestamp := ts,
          validator_address := validator_address,
          error_message := some "Video not transcoded to required formats",
          replicas_found := (onlineReplicaCount net vm : ℤ),
          transcoding_complete := false, transcoding_formats := [] }) ∧
    (∀ vm, net.videos.lookup video_cid = some vm →
      ¬ ((onlineReplicaCount net vm : ℤ) < min_replicas) →
      vm.transcoded_profiles ≠ [] →
      validate_video_storage video_cid validator_address net min_replicas ts =
        { is_valid := true, video_cid := video_cid, validation_timestamp := ts,
          validator_address := validator_address, error_message := none,
          replicas_found := (onlineReplicaCount net vm : ℤ),
          transcoding_complete := true,
          transcoding_formats :=
            vm.transcoded_profiles.map TranscodingProfile.format_name }) := by
  refine ⟨?_, ?_, ?_, ?_⟩
  · intro h
    simp [validate_video_storage, h]
  · intro vm h hlt
    simp [validate_video_storage, h, hlt]
  · intro vm h hge hempty
    simp [validate_video_storage, h, hge, hempty]
  · intro vm h hge hne
    simp [validate_video_storage, h, hge, hne]

/-- A transcoding profile for the validation-gating instances. -/
def c4Profile : TranscodingProfile :=
  { format_name := "h264_720p", codec := "h.264", resolution := "720p",
    bitrate := "2500k", size_bytes := 1000, duration_seconds := 600,
    hash := "hsh" }

/-- An online storage node for the validation-gating instances. -/
def c4Node : StorageNode :=
  { node_id := "n1", address := "a1", region := "us-west",
    storage_capacity := 10000, storage_used := 1000, reputation := 80 }

/-- A replicated, transcoded video held by `c4Node`. -/
def c4Video : VideoMetadata :=
  { video_cid := "v1", creator_id := "creator", title := "t",
    duration_seconds := 600, original_size_bytes := 1000,
    transcoding_status := TranscodingStatus.COMPLETED,
    available_on_network := ["n1"], transcoded_profiles := [c4Profile] }

/-- A one-video, one-node network on which validation fully passes. -/
def c4Net : StorageNetwork :=
  { videos := [("v1", c4Video)], nodes := [("n1", c4Node)], proofs := [] }

/-- C4 witness: the gating theorem applied to an unknown CID on the empty
network and to the fully-stored video of `c4Net`. -/
theorem c4_validation_gating_witness :
    validate_video_storage "vX" "addr" emptyNetwork 1 "ts" =
      { is_valid := false, video_cid := "vX", validation_timestamp := "ts",
        validator_address := "addr",
        error_message := some "Video vX not found in storage network",
        replicas_found := 0, transcoding_complete := false,
        transcoding_formats := [] } ∧
    validate_video_storage "v1" "addr" c4Net 1 "ts" =
      { is_valid := true, video_cid := "v1", validation_timestamp := "ts",
        validator_address := "addr", error_message := none, replicas_found := 1,
        transcoding_complete := true, transcoding_formats := ["h264_720p"] } := by
  constructor
  · exact (c4_validation_gating "vX" "addr" "ts" emptyNetwork 1).1 rfl
  · rw [(c4_validation_gating "v1" "addr" "ts" c4Net 1).2.2.2 c4Video rfl
      (by decide) (by decide)]
    decide

/-- C5: whenever `validate_video_storage` (with `min_replicas=1`, as
`mine_block` calls it) reports the target video invalid, `mine_block`
raises `ValidationError` carrying the validation's error message, yields
no block and no storage proof, and the storage network — videos, nodes
and proofs alike — is returned unchanged. -/
theorem c5_mining_aborts_on_invalid (block_number : ℤ)
    (miner_address previous_block_hash video_cid creator_id : String)
    (pending_transactions : List Transaction) (net : StorageNetwork)
    (reward_config : DynamicRewardConfig) (difficulty : ℤ)
    (now tx_id proof_nonce : String) (block_nonce : ℤ)
    (hinvalid :
      (validate_video_storage video_cid miner_address net 1 now).is_valid = false) :
    mine_block block_number miner_address previous_block_hash video_cid creator_id
        pending_transactions net reward_config difficulty now tx_id proof_nonce
        block_nonce =
      (Except.error (MiningFailure.validationError ("Video validation failed: "
        ++ pyOptStr (validate_video_storage video_cid miner_address net 1
            now).error_message)), net) := by
  simp [mine_block, hinvalid]

/-- C5 witness: mining an unregistered video on the empty network fails
with `ValidationError` and returns the network untouched. -/
theorem c5_mining_aborts_on_invalid_witness :
    (validate_video_storage "v" "m" emptyNetwork 1 "ts").is_valid = false ∧
    mine_block 1 "m" "prevhash" "v" "c" [] emptyNetwork defaultRewardConfig 1
        "ts" "txid" "nonce" 0 =
      (Except.error (MiningFailure.validationError ("Video validation failed: "
        ++ pyOptStr (validate_video_storage "v" "m" emptyNetwork 1
            "ts").error_message)), emptyNetwork) :=
  ⟨rfl, c5_mining_aborts_on_invalid 1 "m" "prevhash" "v" "c" [] emptyNetwork
    defaultRewardConfig 1 "ts" "txid" "nonce" 0 rfl⟩

theorem store_video_replica_nodes (net : StorageNetwork) (video_cid node_id : String) :
    (store_video_replica net video_cid node_id).2.nodes = net.nodes ∨
    (∃ video node, net.videos.lookup video_cid = some video ∧
      net.nodes.lookup node_id = some node ∧
      node.storage_used + video.original_size_bytes ≤ node.storage_capacity ∧
      (store_video_replica net video_cid node_id).2.nodes =
        dictSet net.nodes node_id
          { node with storage_used :=
              node.storage_used + video.original_size_bytes }) := by
  unfold store_video_replica
  cases hv : net.videos.lookup video_cid with
  | none => left; rfl
  | some video =>
    cases hn : net.nodes.lookup node_id with
    | none => left; rfl
    | some node =>
      dsimp only
      by_cases hcap : node.storage_capacity < node.storage_used + video.original_size_bytes
      · rw [if_pos hcap]
        left; rfl
      · rw [if_neg hcap]
        by_cases hmem : node_id ∈ video.available_on_network
        · rw [if_pos hmem]
          left; rfl
        · rw [if_neg hmem]
          right
          exact ⟨video, node, rfl, rfl, not_lt.mp hcap, rfl⟩

theorem transcode_video_nodes (net : StorageNetwork) (video_cid : String)
    (profiles : List TranscodingProfile) :
    (transcode_video net video_cid profiles).2.nodes = net.nodes := by
  unfold transcode_video
  cases hv : net.videos.lookup video_cid <;> rfl

theorem verify_video_storage_nodes (net : StorageNetwork) (video_cid : String)
    (min_replicas : ℤ) :
    (verify_video_storage net video_cid min_replicas).2.nodes = net.nodes := by
  unfold verify_video_storage
  cases hv : net.videos.lookup video_cid with
  | none => rfl
  | some video =>
    dsimp only
    split
    · rfl
    · split <;> rfl

theorem nodesWithinCapacity_applyOp (net : StorageNetwork) (op : NetOp)
    (hcap : NetOp.capNonneg op = true) (h : NodesWithinCapacity net) :
    NodesWithinCapacity (applyOp net op) := by
  cases op with
  | register id addr region cap rep =>
    intro id' n' h'
    simp only [applyOp, register_node] at h'
    by_cases he : id' = id
    · subst he
      rw [dictSet_lookup_self] at h'
      have hn := Option.some.inj h'
      subst hn
      simpa [NetOp.capNonneg] using hcap
    · rw [dictSet_lookup_ne _ _ _ _ he] at h'
      exact h id' n' h'
  | upload cid creator title dur size now =>
    intro id' n' h'
    exact h id' n' h'
  | storeReplica cid nid =>
    rcases store_video_replica_nodes net cid nid with heq | ⟨video, node, hv, hn, hle, heq⟩
    · intro id' n' h'
      simp only [applyOp] at h'
      rw [heq] at h'
      exact h id' n' h'
    · intro id' n' h'
      simp only [applyOp] at h'
      rw [heq] at h'
      by_cases he : id' = nid
      · subst he
        rw [dictSet_lookup_self] at h'
        have hn' := Option.some.inj h'
        subst hn'
        simpa using hle
      · rw [dictSet_lookup_ne _ _ _ _ he] at h'
        exact h id' n' h'
  | transcode cid profiles =>
    intro id' n' h'
    simp only [applyOp] at h'
    rw [transcode_video_nodes] at h'
    exact h id' n' h'
  | verify cid mr =>
    intro id' n' h'
    simp only [applyOp] at h'
    rw [verify_video_storage_nodes] at h'
    exact h id' n' h'
  | offline nid =>
    intro id' n' h'
    revert h'
    show ((offline_node net nid).2.nodes.lookup id' = some n') →
      n'.storage_used ≤ n'.storage_capacity
    unfold offline_node
    cases hn : net.nodes.lookup nid with
    | none => exact fun h' => h id' n' h'
    | some node =>
      dsimp only
      by_cases he : id' = nid
      · subst he
        rw [dictSet_lookup_self]
        intro h'
        have hn' := Option.some.inj h'
        subst hn'
        exact h id' node hn
      · rw [dictSet_lookup_ne _ _ _ _ he]
        exact fun h' => h id' n' h'

theorem nodesWithinCapacity_runFrom (ops : List NetOp) (net : StorageNetwork)
    (hcap : ∀ op ∈ ops, NetOp.capNonneg op = true) (h : NodesWithinCapacity net) :
    NodesWithinCapacity (runFrom net ops) := by
  induction ops generalizing net with
  | nil => exact h
  | cons op t ih =>
    exact ih (applyOp net op) (fun o ho => hcap o (List.mem_cons_of_mem _ ho))
      (nodesWithinCapacity_applyOp net op (hcap op (List.mem_cons_self _ _)) h)

/-- C7: in every network reachable from the empty one by registrations
with non-negative capacity, uploads, replica stores, transcodes,
verifications and offline markings, every node's `storage_used` stays
within `storage_capacity`; and `store_video_replica` returns false and
leaves the state untouched when the video or node is unknown or the node
lacks capacity. -/
theorem c7_capacity_invariant (ops : List NetOp) (id : String) (n : StorageNode)
    (net : StorageNetwork) (video_cid node_id : String)
    (hcap : ∀ op ∈ ops, NetOp.capNonneg op = true)
    (hlookup : (runOps ops).nodes.lookup id = some n)
    (hfail : storeReplicaFails net video_cid node_id = true) :
    n.storage_used ≤ n.storage_capacity ∧
    store_video_replica net video_cid node_id = (false, net) := by
  constructor
  · exact nodesWithinCapacity_runFrom ops emptyNetwork hcap
      (by intro i m hm; simp [emptyNetwork, List.lookup] at hm) id n hlookup
  · unfold storeReplicaFails at hfail
    unfold store_video_replica
    cases hv : net.videos.lookup video_cid with
    | none => rfl
    | some video =>
      cases hn : net.nodes.lookup node_id with
      | none => rfl
      | some node =>
        rw [hv, hn] at hfail
        have hcond := of_decide_eq_true (show decide (node.storage_capacity <
          node.storage_used + video.original_size_bytes) = true from hfail)
        simp [hcond]

/-- Operation trace for the capacity-invariant witness: one node, one
video, one replica store. -/
def c7Ops : List NetOp :=
  [ NetOp.register "n1" "addr" "us-west" 100 80,
    NetOp.upload "v1" "creator" "title" 10 60 "ts",
    NetOp.storeReplica "v1" "n1" ]

/-- The node state after `c7Ops`: 60 of 100 bytes used. -/
def c7Node : StorageNode :=
  { node_id := "n1", address := "addr", region := "us-west",
    storage_capacity := 100, storage_used := 60, reputation := 80 }

/-- C7 witness: the invariant theorem applied to the concrete trace
`c7Ops` and to a replica store on the empty network (unknown video),
which fails and changes nothing. -/
theorem c7_capacity_invariant_witness :
    ((∀ op ∈ c7Ops, NetOp.capNonneg op = true) ∧
      (runOps c7Ops).nodes.lookup "n1" = some c7Node ∧
      storeReplicaFails emptyNetwork "v9" "n9" = true) ∧
    (c7Node.storage_used ≤ c7Node.storage_capacity ∧
      store_video_replica emptyNetwork "v9" "n9" = (false, emptyNetwork)) :=
  ⟨⟨by decide, rfl, rfl⟩,
    c7_capacity_invariant c7Ops "n1" c7Node emptyNetwork "v9" "n9"
      (by decide) rfl rfl⟩

/-- C8: when the node already holds a replica of the video, a second
`store_video_replica` call for the same pair leaves the video's
`available_on_network` list and the whole node table — in particular
every node's `storage_used` — unchanged: usage is never double-counted. -/
theorem c8_store_replica_idempotent (net : StorageNetwork)
    (video_cid node_id : String) (v : VideoMetadata)
    (hv : net.videos.lookup video_cid = some v)
    (hmem : node_id ∈ v.available_on_network) :
    ((store_video_replica net video_cid node_id).2.videos.lookup video_cid).map
      VideoMetadata.available_on_network = some v.available_on_network ∧
    (store_video_replica net video_cid node_id).2.nodes = net.nodes := by
  unfold store_video_replica
  simp only [hv]
  cases hn : net.nodes.lookup node_id with
  | none => exact ⟨by simp [hv], rfl⟩
  | some node =>
    dsimp only
    by_cases hcap : node.storage_capacity < node.storage_used + v.original_size_bytes
    · rw [if_pos hcap]
      exact ⟨by simp [hv], rfl⟩
    · rw [if_neg hcap, if_pos hmem]
      refine ⟨?_, rfl⟩
      dsimp only
      rw [dictSet_lookup_self]
      split <;> rfl

/-- C8 witness: the idempotence theorem applied to the network `c4Net`,
where node "n1" already holds the only replica of video "v1". -/
theorem c8_store_replica_idempotent_witness :
    (c4Net.videos.lookup "v1" = some c4Video ∧ "n1" ∈ c4Video.available_on_network) ∧
    (((store_video_replica c4Net "v1" "n1").2.videos.lookup "v1").map
      VideoMetadata.available_on_network = some c4Video.available_on_network ∧
    (store_video_replica c4Net "v1" "n1").2.nodes = c4Net.nodes) :=
  ⟨⟨rfl, by decide⟩,
    c8_store_replica_idempotent c4Net "v1" "n1" c4Video rfl (by decide)⟩

/-- Once offline, the node with this id stays offline in this state. -/
def OfflineStays (id : String) (net : StorageNetwork) : Prop :=
  ∀ m, net.nodes.lookup id = some m → m.is_online = false

theorem offlineStays_applyOp (id : String) (net : StorageNetwork) (op : NetOp)
    (hop : NetOp.isRegisterOf id op = false) (h : OfflineStays id net) :
    OfflineStays id (applyOp net op) := by
  cases op with
  | register id' addr region cap rep =>
    have hne : id ≠ id' := by
      simp only [NetOp.isRegisterOf, decide_eq_false_iff_not] at hop
      exact fun he => hop he.symm
    intro m hm
    simp only [applyOp, register_node] at hm
    rw [dictSet_lookup_ne _ _ _ _ hne] at hm
    exact h m hm
  | upload cid creator title dur size now =>
    intro m hm
    exact h m hm
  | storeReplica cid nid =>
    rcases store_video_replica_nodes net cid nid with heq | ⟨video, node, hv, hn, hle, heq⟩
    · intro m hm
      simp only [applyOp] at hm
      rw [heq] at hm
      exact h m hm
    · intro m hm
      simp only [applyOp] at hm
      rw [heq] at hm
      by_cases he : id = nid
      · subst he
        rw [dictSet_lookup_self] at hm
        have hm' := Option.some.inj hm
        subst hm'
        exact h node hn
      · rw [dictSet_lookup_ne _ _ _ _ he] at hm
        exact h m hm
  | transcode cid profiles =>
    intro m hm
    simp only [applyOp] at hm
    rw [transcode_video_nodes] at hm
    exact h m hm
  | verify cid mr =>
    intro m hm
    simp only [applyOp] at hm
    rw [verify_video_storage_nodes] at hm
    exact h m hm
  | offline nid =>
    intro m hm
    revert hm
    show ((offline_node net nid).2.nodes.lookup id = some m) → m.is_online = false
    unfold offline_node
    cases hn : net.nodes.lookup nid with
    | none => exact fun hm => h m hm
    | some node =>
      dsimp only
      by_cases he : id = nid
      · subst he
        rw [dictSet_lookup_self]
        intro hm
        have hm' := Option.some.inj hm
        subst hm'
        rfl
      · rw [dictSet_lookup_ne _ _ _ _ he]
        exact fun hm => h m hm

theorem offlineStays_runFrom (id : String) (ops : List NetOp) (net : StorageNetwork)
    (hops : ∀ op ∈ ops, NetOp.isRegisterOf id op = false) (h : OfflineStays id net) :
    OfflineStays id (runFrom net ops) := by
  induction ops generalizing net with
  | nil => exact h
  | cons op t ih =>
    exact ih (applyOp net op) (fun o ho => hops o (List.mem_cons_of_mem _ ho))
      (offlineStays_applyOp id net op (hops op (List.mem_cons_self _ _)) h)

/-- C9 (amended): once a node is offline, no subsequent `upload_video`,
`store_video_replica`, `transcode_video`, `verify_video_storage` or
`offline_node` call — nor a `register_node` for a DIFFERENT id — ever
turns its `is_online` back to true; the one exception, refuted against
the original claim by `c9_offline_one_way_counterexample`, is
`register_node` on the same id, which replaces the record with a fresh
online node. -/
theorem c9_offline_one_way (ops : List NetOp) (net : StorageNetwork) (id : String)
    (n n' : StorageNode)
    (hn : net.nodes.lookup id = some n) (hoff : n.is_online = false)
    (hops : ∀ op ∈ ops, NetOp.isRegisterOf id op = false)
    (hn' : (runFrom net ops).nodes.lookup id = some n') :
    n'.is_online = false :=
  offlineStays_runFrom id ops net hops
    (fun m hm => by
      rw [hn] at hm
      have hm' := Option.some.inj hm
      subst hm'
      exact hoff) n' hn'

/-- Trace that registers node "n1" and takes it offline. -/
def c9Ops : List NetOp :=
  [ NetOp.register "n1" "a" "r" 100 80, NetOp.offline "n1" ]

/-- Follow-up operations that never re-register "n1". -/
def c9WOps : List NetOp :=
  [ NetOp.upload "v" "c" "t" 1 1 "ts", NetOp.register "n2" "a2" "r" 50 80,
    NetOp.storeReplica "v" "n1", NetOp.offline "n2" ]

/-- The offline record of node "n1" after `c9Ops`. -/
def c9NodeOff : StorageNode :=
  { node_id := "n1", address := "a", region := "r", storage_capacity := 100,
    storage_used := 0, reputation := 80, is_online := false }

/-- The record of node "n1" after the follow-up trace `c9WOps`: the
replica store charged one byte of usage, but the node is still offline. -/
def c9NodeOffStored : StorageNode :=
  { node_id := "n1", address := "a", region := "r", storage_capacity := 100,
    storage_used := 1, reputation := 80, is_online := false }

/-- C9 counterexample: after `offline_node` has marked "n1" offline, a
second `register_node` call for the very same id — one of the operations
the claim quantifies over — replaces the record and its `is_online` is
true again, refuting "going offline is one-way under all six
operations". -/
theorem c9_offline_one_way_counterexample :
    ((runOps c9Ops).nodes.lookup "n1").map StorageNode.is_online = some false ∧
    ((runFrom (runOps c9Ops) [NetOp.register "n1" "a" "r" 100 80]).nodes.lookup
      "n1").map StorageNode.is_online = some true := by
  exact ⟨rfl, rfl⟩

/-- C9 witness: the amended theorem applied to the offline node "n1" of
`c9Ops` across a follow-up trace that uploads, registers another node,
attempts a replica store on "n1" and offlines the other node. -/
theorem c9_offline_one_way_witness :
    ((runOps c9Ops).nodes.lookup "n1" = some c9NodeOff ∧
      c9NodeOff.is_online = false ∧
      (∀ op ∈ c9WOps, NetOp.isRegisterOf "n1" op = false) ∧
      (runFrom (runOps c9Ops) c9WOps).nodes.lookup "n1" = some c9NodeOffStored) ∧
    c9NodeOffStored.is_online = false :=
  ⟨⟨rfl, rfl, by decide, rfl⟩,
    c9_offline_one_way c9WOps (runOps c9Ops) "n1" c9NodeOff c9NodeOffStored rfl rfl
      (by decide) rfl⟩

/-- C10: calling `upload_video` on an already-registered CID silently
replaces the record with a fresh `VideoMetadata` — storage status
UNKNOWN, transcoding NOT_STARTED, empty replica and profile lists — with
no error channel, and the node table (hence every node's `storage_used`)
is untouched: capacity consumed by replicas of the old record is never
released. -/
theorem c10_reupload_overwrites (net : StorageNetwork)
    (video_cid creator_id title now : String) (duration size : ℤ)
    (hknown : (net.videos.lookup video_cid).isSome = true) :
    (upload_video net video_cid creator_id title duration size now).2.videos.lookup
      video_cid =
      some { video_cid := video_cid, creator_id := creator_id, title := title,
             duration_seconds := duration, original_size_bytes := size,
             storage_status := StorageStatus.UNKNOWN,
             transcoding_status := TranscodingStatus.NOT_STARTED,
             uploaded_at := now, available_on_network := [],
             transcoded_profiles := [], replication_factor := 3,
             total_cost_storage := 0, total_cost_transcoding := 0 } ∧
    (upload_video net video_cid creator_id title duration size now).2.nodes =
      net.nodes := by
  exact ⟨dictSet_lookup_self _ _ _, rfl⟩

/-- C10 witness: re-uploading "v1" over the populated network `c4Net`
yields the fresh record and leaves the node table alone. -/
theorem c10_reupload_overwrites_witness :
    (c4Net.videos.lookup "v1").isSome = true ∧
    ((upload_video c4Net "v1" "creator2" "title2" 99 77 "ts2").2.videos.lookup "v1" =
      some { video_cid := "v1", creator_id := "creator2", title := "title2",
             duration_seconds := 99, original_size_bytes := 77,
             storage_status := StorageStatus.UNKNOWN,
             transcoding_status := TranscodingStatus.NOT_STARTED,
             uploaded_at := "ts2", available_on_network := [],
             transcoded_profiles := [], replication_factor := 3,
             total_cost_storage := 0, total_cost_transcoding := 0 } ∧
    (upload_video c4Net "v1" "creator2" "title2" 99 77 "ts2").2.nodes =
      c4Net.nodes) :=
  ⟨rfl, c10_reupload_overwrites c4Net "v1" "creator2" "title2" "ts2" 99 77 rfl⟩
